import Mathlib

/-!
Verification development for the BLuxA transportation booking backend
(source file bluxa-corp-merged-production-backend.py). The embedding
covers the booking and payment state machine, the notification ledger
with its two delivery channels, the retry scheduler and the audit log.

Modelling conventions, each taken from the source:
- Text values of the Python code (addresses, names) are lists of
  characters; a Python truthiness test on a string is a non-emptiness
  test.
- Database rows are structures; the relevant tables are lists of rows
  inside a DB record. Row updates keyed by an id are maps over the list,
  exactly mirroring the supabase update(...).eq(id, ...) calls.
- Fallible external effects (HTTP sends, database inserts, the audit
  insert) are driven by explicit environment records carrying their
  outcomes, so every definition is executable on concrete inputs.
- Currency amounts are rationals, modelling the exact arithmetic of the
  pricing formulas; the Python max builtin over two amounts is ratMax.
- Nullable boolean columns (email_sent, sms_sent) are Option Bool, with
  none standing for SQL null or an absent key; the Python test
  value is False is equality with some false.
-/

/-- Python max over two rational amounts, as used by calculate_price. -/
def ratMax (a b : ℚ) : ℚ := if a ≤ b then b else a

/-- Status column of a notification row: pending, sent or failed. -/
inductive NStatus
  | pending
  | sent
  | failed
deriving DecidableEq, Repr

/-- The notification type column; only the three confirmation types are
eligible for channel re-attempts in the retry scheduler. -/
inductive NType
  | welcome
  | booking_confirmation
  | payment_confirmation
  | driver_assigned
  | booking_assigned
  | status_update
  | admin_event
deriving DecidableEq, Repr

/-- A row of the notifications table. meta_phone models the truthiness
of metadata.get applied to the phone key. -/
structure Notification where
  nid : Nat
  ntype : NType
  status : NStatus
  retry_count : Nat
  max_retries : Nat
  email_sent : Option Bool
  sms_sent : Option Bool
  meta_phone : Bool
deriving DecidableEq, Repr

/-- The row inserted by create_notification: status pending,
retry_count 0, max_retries 3; the insert writes neither channel flag. -/
def create_notification_row (nid : Nat) (t : NType) (mp : Bool) : Notification :=
  { nid := nid, ntype := t, status := NStatus.pending, retry_count := 0,
    max_retries := 3, email_sent := none, sms_sent := none, meta_phone := mp }

/-- Environment of one call to the email sender: whether the RESEND api
key is configured, and the outcome of each local HTTP sub-attempt. -/
structure EmailEnv where
  configured : Bool
  attempt : Nat → Bool

/-- Environment of one call to the WhatsApp sender: whether the webhook
url is configured, and the outcome of each local HTTP sub-attempt. -/
structure WaEnv where
  configured : Bool
  attempt : Nat → Bool

/-- Whether any of the first k local sub-attempts succeeds; models the
for attempt in range loop that returns at the first 200 response. -/
def anyAttempt (f : Nat → Bool) (k : Nat) : Bool := (List.range k).any f

/-- Whether a call to send_email_with_retry reports success. -/
def email_ok (e : EmailEnv) (k : Nat) : Bool := e.configured && anyAttempt e.attempt k

/-- The update send_email_with_retry applies to its notification row:
unconfigured key writes status failed only; a successful sub-attempt
writes status sent and email_sent true; k failed sub-attempts write
status failed and retry_count k (the call-site value of max_retries). -/
def email_upd (e : EmailEnv) (k : Nat) (n : Notification) : Notification :=
  if e.configured = false then { n with status := NStatus.failed }
  else if anyAttempt e.attempt k then
    { n with status := NStatus.sent, email_sent := some true }
  else { n with status := NStatus.failed, retry_count := k }

/-- Whether a call to send_whatsapp_with_retry reports success. -/
def wa_ok (w : WaEnv) (k : Nat) : Bool := w.configured && anyAttempt w.attempt k

/-- The update send_whatsapp_with_retry applies to its notification row;
same structure as the email sender with sms_sent in place of email_sent. -/
def wa_upd (w : WaEnv) (k : Nat) (n : Notification) : Notification :=
  if w.configured = false then { n with status := NStatus.failed }
  else if anyAttempt w.attempt k then
    { n with status := NStatus.sent, sms_sent := some true }
  else { n with status := NStatus.failed, retry_count := k }

/-- Status column of a booking row. -/
inductive BookStatus
  | pending
  | assigned
  | confirmed
  | completed
  | cancelled
deriving DecidableEq, Repr

/-- payment_status column of a booking row. -/
inductive BPayStatus
  | pending
  | paid
  | failed
deriving DecidableEq, Repr

/-- payment_status column of a payments-table row. -/
inductive PayRowStatus
  | pending
  | completed
  | failed
deriving DecidableEq, Repr

/-- The vehicle types known to the pricing defaults table. -/
inductive VehicleType
  | executive_sedan
  | luxury_suv
  | sprinter_van
  | unknown_type
deriving DecidableEq, Repr

/-- A row of the bookings table (the fields the claims mention).
customer_phone_present models truthiness of the stored phone string. -/
structure Booking where
  id : Nat
  vehicle_type : VehicleType
  status : BookStatus
  payment_status : BPayStatus
  total_amount : ℚ
  customer_phone_present : Bool
deriving DecidableEq, Repr

/-- A row of the payments table. -/
structure Payment where
  transaction_id : Nat
  payment_status : PayRowStatus
deriving DecidableEq, Repr

/-- Action names written to the audit_logs table. -/
inductive AuditAction
  | booking_created
  | payment_intent_created
  | payment_completed
  | booking_status_updated
  | driver_assigned
  | other_action
deriving DecidableEq, Repr

/-- The persistent store: bookings, payments and notifications tables,
the append-only audit log, and counters of sender invocations. -/
structure DB where
  bookings : List Booking
  payments : List Payment
  notifications : List Notification
  audit_logs : List AuditAction
  emailCalls : Nat
  waCalls : Nat
deriving DecidableEq, Repr

/-- Update the notification row with the given id, mirroring
update(...).eq(id, notification_id). -/
def updNotif (i : Nat) (f : Notification → Notification) (l : List Notification) : List Notification :=
  l.map (fun (n : Notification) => if n.nid = i then f n else n)

/-- send_email_with_retry at the store level: one sender invocation is
counted, and when a notification id was passed its row is updated. -/
def send_email_with_retry (e : EmailEnv) (k : Nat) (nid : Option Nat) (db : DB) : DB × Bool :=
  let db1 := { db with emailCalls := db.emailCalls + 1 }
  match nid with
  | none => (db1, email_ok e k)
  | some i =>
      ({ db1 with notifications := updNotif i (email_upd e k) db1.notifications },
       email_ok e k)

/-- send_whatsapp_with_retry at the store level. -/
def send_whatsapp_with_retry (w : WaEnv) (k : Nat) (nid : Option Nat) (db : DB) : DB × Bool :=
  let db1 := { db with waCalls := db.waCalls + 1 }
  match nid with
  | none => (db1, wa_ok w k)
  | some i =>
      ({ db1 with notifications := updNotif i (wa_upd w k) db1.notifications },
       wa_ok w k)

/-- The raw audit-table insert, which can fail (a thrown exception is
the error value). -/
def audit_insert (ok : Bool) (a : AuditAction) (log : List AuditAction) :
    Except Unit (List AuditAction) :=
  if ok then Except.ok (log ++ [a]) else Except.error ()

/-- create_audit_log: the insert runs inside a try block; a failure is
logged and swallowed, leaving the store untouched. The function is
total: no error ever reaches the caller. -/
def create_audit_log (ok : Bool) (a : AuditAction) (db : DB) : DB :=
  match audit_insert ok a db.audit_logs with
  | Except.ok l => { db with audit_logs := l }
  | Except.error _ => db

/-- create_notification: inserts a fresh ledger row and returns its id;
an insert failure is caught and none is returned. -/
def create_notification (ok : Bool) (t : NType) (mp : Bool) (db : DB) : DB × Option Nat :=
  if ok then
    let n := create_notification_row db.notifications.length t mp
    ({ db with notifications := db.notifications ++ [n] }, some n.nid)
  else (db, none)

/-- A row of the vehicles table carrying pricing data. The two rate
columns are taken non-null (vehicle creation always writes them). Of
the two nullable columns, only minimum_charge has an in-code null
guard; a null airport_surcharge makes the float cast raise, because the
select always returns the named key and the 10.00 default of the
dictionary get covers only an absent key. -/
structure VehicleRow where
  base_rate : ℚ
  per_hour_rate : ℚ
  airport_surcharge : Option ℚ
  minimum_charge : Option ℚ
deriving DecidableEq

/-- The system_settings rows for one vehicle type: the three per-type
keys, each possibly absent. -/
structure SettingsRows where
  base_rate : Option ℚ
  hourly_rate : Option ℚ
  airport_rate : Option ℚ
deriving DecidableEq

/-- What the two pricing queries observe for one vehicle type: the
available vehicles row if any, the settings rows if any were returned,
and whether the queries raised. -/
structure PricingDb where
  vehicleRow : Option VehicleRow
  settingsRows : Option SettingsRows
  dbError : Bool

/-- The rate configuration returned by get_pricing_from_db. -/
structure PricingConfig where
  base_rate : ℚ
  per_hour_rate : ℚ
  airport_transfer_rate : ℚ
  minimum_charge : ℚ
deriving DecidableEq, Repr

/-- Branch 1 of get_pricing_from_db: rates from a vehicles row whose
airport_surcharge read back non-null (sur); the minimum charge is the
one nullable column with an explicit in-code guard, falling back to
twice the base rate. -/
def configOfVehicle (v : VehicleRow) (sur : ℚ) : PricingConfig :=
  { base_rate := v.base_rate, per_hour_rate := v.per_hour_rate,
    airport_transfer_rate := v.per_hour_rate + sur,
    minimum_charge := v.minimum_charge.getD (v.base_rate * 2) }

/-- Branch 2 of get_pricing_from_db: rates from system_settings, with
per-key defaults 25 and 65, airport rate defaulting to hourly plus 10,
and the heuristic minimum of twice the base rate. -/
def configOfSettings (s : SettingsRows) : PricingConfig :=
  let b := s.base_rate.getD 25
  let h := s.hourly_rate.getD 65
  { base_rate := b, per_hour_rate := h,
    airport_transfer_rate := s.airport_rate.getD (h + 10),
    minimum_charge := b * 2 }

/-- The hardcoded defaults table, with executive_sedan rates for an
unknown vehicle type. -/
def defaultRatesFor : VehicleType → ℚ × ℚ
  | VehicleType.executive_sedan => (25, 65)
  | VehicleType.luxury_suv => (35, 95)
  | VehicleType.sprinter_van => (45, 120)
  | VehicleType.unknown_type => (25, 65)

/-- Branch 3 of get_pricing_from_db: the hardcoded defaults. -/
def defaultConfig (vt : VehicleType) : PricingConfig :=
  let p := defaultRatesFor vt
  { base_rate := p.1, per_hour_rate := p.2,
    airport_transfer_rate := p.2 + 10, minimum_charge := p.1 * 2 }

/-- The constants of the last-ditch except branch of get_pricing_from_db. -/
def lastDitchConfig : PricingConfig :=
  { base_rate := 25, per_hour_rate := 65, airport_transfer_rate := 75,
    minimum_charge := 50 }

/-- get_pricing_from_db: vehicles row first, system_settings second,
hardcoded defaults last, and the last-ditch constants if anything
raised - which a query failure does, and which a vehicles row with a
null airport_surcharge also does, because the float cast of the read
value raises inside the same try block and is caught by the same
except. -/
def get_pricing_from_db (p : PricingDb) (vt : VehicleType) : PricingConfig :=
  if p.dbError then lastDitchConfig
  else
    match p.vehicleRow with
    | some v =>
        match v.airport_surcharge with
        | some sur => configOfVehicle v sur
        | none => lastDitchConfig
    | none =>
        match p.settingsRows with
        | some s => configOfSettings s
        | none => defaultConfig vt

/-- calculate_price: the airport transfer rate, or base rate plus hourly
rate times the duration in hours, floored at the minimum charge. -/
def calculate_price (p : PricingDb) (vt : VehicleType) (duration_minutes : ℚ)
    (is_airport_transfer : Bool) : ℚ :=
  let config := get_pricing_from_db p vt
  let price :=
    if is_airport_transfer then config.airport_transfer_rate
    else config.base_rate + config.per_hour_rate * (duration_minutes / 60)
  ratMax price config.minimum_charge

/-- Truthiness of an optional request field: present and non-empty. -/
def present : Option (List Char) → Bool
  | none => false
  | some s => !s.isEmpty

/-- The JSON body of a booking-creation request; absent keys are none.
Defaults for vehicle type and duration are applied by the caller of
data.get, so the two are plain fields here. -/
structure BookingRequest where
  pickup_location : Option (List Char)
  destination : Option (List Char)
  pickup_date : Option (List Char)
  pickup_time : Option (List Char)
  customer_name : Option (List Char)
  customer_email : Option (List Char)
  customer_phone : Option (List Char)
  vehicle_type : VehicleType
  estimated_duration : Nat

/-- The validation guard of create_booking: all seven required fields
truthy. -/
def requiredPresent (r : BookingRequest) : Bool :=
  present r.pickup_location && present r.destination && present r.pickup_date &&
  present r.pickup_time && present r.customer_name && present r.customer_email &&
  present r.customer_phone

/-- Whether the pattern is an initial segment of the text. -/
def leadMatch : List Char → List Char → Bool
  | [], _ => true
  | _ :: _, [] => false
  | p :: ps, c :: cs => p == c && leadMatch ps cs

/-- Whether the pattern occurs somewhere in the text; models the Python
in operator on strings. -/
def subMatch (pat : List Char) : List Char → Bool
  | [] => leadMatch pat []
  | c :: cs => leadMatch pat (c :: cs) || subMatch pat cs

/-- The lower-cased characters of the airport keyword. -/
def airportChars : List Char := ['a', 'i', 'r', 'p', 'o', 'r', 't']

/-- The airport test applied to each address in create_booking. -/
def mentionsAirport (s : List Char) : Bool :=
  subMatch airportChars (s.map Char.toLower)

/-- Environment of one create_booking call: the pricing store view, the
id the insert will assign, and the outcomes of the fallible effects. -/
structure CreateEnv where
  pricing : PricingDb
  newUuid : Nat
  insertOk : Bool
  auditOk : Bool
  notifOk : Bool
  email : EmailEnv
  wa : WaEnv

/-- Response of create_booking. -/
inductive CreateResult
  | created (b : Booking)
  | validationError
  | insertFailed
deriving DecidableEq, Repr

/-- create_booking: validates the seven required fields, prices the trip,
inserts the booking, writes an audit entry, creates the confirmation
ledger row, then attempts email and WhatsApp delivery in that order. -/
def create_booking (r : BookingRequest) (env : CreateEnv) (db : DB) : DB × CreateResult :=
  if requiredPresent r = false then (db, CreateResult.validationError)
  else
    let is_airport :=
      mentionsAirport (r.pickup_location.getD []) ||
      mentionsAirport (r.destination.getD [])
    let total_price :=
      calculate_price env.pricing r.vehicle_type (r.estimated_duration : ℚ) is_airport
    if env.insertOk = false then (db, CreateResult.insertFailed)
    else
      let b : Booking :=
        { id := env.newUuid, vehicle_type := r.vehicle_type,
          status := BookStatus.pending, payment_status := BPayStatus.pending,
          total_amount := total_price, customer_phone_present := true }
      let db1 := { db with bookings := db.bookings ++ [b] }
      let db2 := create_audit_log env.auditOk AuditAction.booking_created db1
      let pr := create_notification env.notifOk NType.booking_confirmation true db2
      let db4 := (send_email_with_retry env.email 3 pr.2 pr.1).1
      let db5 := (send_whatsapp_with_retry env.wa 3 pr.2 db4).1
      (db5, CreateResult.created b)

/-- Environment of one webhook delivery: outcomes of the fallible
effects along the success path. -/
structure WebhookEnv where
  auditOk : Bool
  notifOk : Bool
  email : EmailEnv
  wa : WaEnv

/-- Response of the webhook endpoint: the two 400 rejections of
construct_event, or the 200 success acknowledgement. -/
inductive WebhookResult
  | invalidPayload
  | invalidSignature
  | received
deriving DecidableEq, Repr

/-- stripe_webhook: construct_event parses the payload and verifies the
signature (each failure is a 400 before any store access); then a
payment_intent.succeeded event with a booking id in its metadata marks
the payment completed, marks the booking paid and confirmed, and - when
the booking update returned a row - writes the audit entry, creates the
payment confirmation ledger row and attempts both channels. -/
def stripe_webhook (payloadOk sigOk succeededType : Bool) (metaBookingId : Option Nat)
    (intentId : Nat) (env : WebhookEnv) (db : DB) : DB × WebhookResult :=
  if payloadOk = false then (db, WebhookResult.invalidPayload)
  else if sigOk = false then (db, WebhookResult.invalidSignature)
  else if succeededType = false then (db, WebhookResult.received)
  else
    match metaBookingId with
    | none => (db, WebhookResult.received)
    | some bid =>
        let db1 := { db with payments := db.payments.map (fun (p : Payment) =>
          if p.transaction_id = intentId then
            { p with payment_status := PayRowStatus.completed }
          else p) }
        let db2 := { db1 with bookings := db1.bookings.map (fun (b : Booking) =>
          if b.id = bid then
            { b with payment_status := BPayStatus.paid, status := BookStatus.confirmed }
          else b) }
        match db2.bookings.filter (fun (b : Booking) => b.id == bid) with
        | [] => (db2, WebhookResult.received)
        | b :: _ =>
            let db3 := create_audit_log env.auditOk AuditAction.payment_completed db2
            let pr := create_notification env.notifOk NType.payment_confirmation
              b.customer_phone_present db3
            let db5 := (send_email_with_retry env.email 3 pr.2 pr.1).1
            let db6 := (send_whatsapp_with_retry env.wa 3 pr.2 db5).1
            (db6, WebhookResult.received)

/-- The notification types whose channels the retry scheduler
re-attempts. -/
def retryableType : NType → Bool
  | NType.booking_confirmation => true
  | NType.payment_confirmation => true
  | NType.driver_assigned => true
  | _ => false

/-- The retry query filter: status failed and retry_count below
max_retries. -/
def retryQueryHit (n : Notification) : Bool :=
  (n.status == NStatus.failed) && decide (n.retry_count < n.max_retries)

/-- The first update the scheduler applies to a selected row: increment
retry_count and set status pending. -/
def retry_mark (n : Notification) : Notification :=
  { n with retry_count := n.retry_count + 1, status := NStatus.pending }

/-- Result of processing one row in a retry cycle: the stored row and
which channels were re-invoked. -/
structure RetryOutcome where
  record : Notification
  emailAtt : Bool
  smsAtt : Bool
deriving DecidableEq, Repr

/-- The channel pass of one retry-cycle iteration, applied to the marked
row: email is re-attempted exactly when the fetched row had email_sent
equal to false, then WhatsApp exactly when the fetched row had sms_sent
equal to false and a truthy phone in its metadata. Both tests read the
row fetched by the query (orig), not the row being updated. -/
def retry_channels (ee : EmailEnv) (we : WaEnv) (orig marked : Notification) : Notification :=
  if (orig.sms_sent == some false) && orig.meta_phone then
    wa_upd we 3 (if orig.email_sent == some false then email_upd ee 3 marked else marked)
  else (if orig.email_sent == some false then email_upd ee 3 marked else marked)

/-- The loop body of retry_failed_notifications for one selected row:
increment retry_count and set status pending, then for the three
confirmation types run the channel pass. -/
def retry_one (ee : EmailEnv) (we : WaEnv) (n : Notification) : RetryOutcome :=
  if retryableType n.ntype then
    { record := retry_channels ee we n (retry_mark n),
      emailAtt := n.email_sent == some false,
      smsAtt := (n.sms_sent == some false) && n.meta_phone }
  else { record := retry_mark n, emailAtt := false, smsAtt := false }

/-- One retry cycle as seen by a single row: rows missed by the query
filter are untouched and no channel is invoked for them. -/
def retry_cycle_step (ee : EmailEnv) (we : WaEnv) (n : Notification) : RetryOutcome :=
  if retryQueryHit n then retry_one ee we n
  else { record := n, emailAtt := false, smsAtt := false }

/-- The operations of the backend that write a given notification row:
a direct email or WhatsApp delivery attempt, or a scheduler cycle. -/
inductive NotifOp
  | emailSend (e : EmailEnv)
  | waSend (w : WaEnv)
  | retryCycle (e : EmailEnv) (w : WaEnv)

/-- Apply one operation to a notification row. -/
def applyOp (n : Notification) : NotifOp → Notification
  | NotifOp.emailSend e => email_upd e 3 n
  | NotifOp.waSend w => wa_upd w 3 n
  | NotifOp.retryCycle e w => (retry_cycle_step e w n).record

/-- The row of a freshly created notification after any sequence of
backend operations on it. -/
def notifAfter (t : NType) (mp : Bool) (ops : List NotifOp) : Notification :=
  ops.foldl applyOp (create_notification_row 0 t mp)

/-- Iterate retry cycles over a row. -/
def retryIter : List (EmailEnv × WaEnv) → Notification → Notification
  | [], n => n
  | c :: cs, n => retryIter cs (retry_cycle_step c.1 c.2 n).record

/-- Whether the email channel was invoked, cycle by cycle. -/
def emailAttTrace : List (EmailEnv × WaEnv) → Notification → List Bool
  | [], _ => []
  | c :: cs, n =>
      (retry_cycle_step c.1 c.2 n).emailAtt ::
        emailAttTrace cs (retry_cycle_step c.1 c.2 n).record

/-- Whether the WhatsApp channel was invoked, cycle by cycle. -/
def smsAttTrace : List (EmailEnv × WaEnv) → Notification → List Bool
  | [], _ => []
  | c :: cs, n =>
      (retry_cycle_step c.1 c.2 n).smsAtt ::
        smsAttTrace cs (retry_cycle_step c.1 c.2 n).record

/-- A sender environment whose every sub-attempt fails. -/
def failEmailEnv : EmailEnv := { configured := true, attempt := fun _ => false }

/-- A sender environment whose every sub-attempt succeeds. -/
def okEmailEnv : EmailEnv := { configured := true, attempt := fun _ => true }

/-- A WhatsApp environment whose every sub-attempt fails. -/
def failWaEnv : WaEnv := { configured := true, attempt := fun _ => false }

/-- A WhatsApp environment whose every sub-attempt succeeds. -/
def okWaEnv : WaEnv := { configured := true, attempt := fun _ => true }

/-- The empty store. -/
def emptyDB : DB :=
  { bookings := [], payments := [], notifications := [], audit_logs := [],
    emailCalls := 0, waCalls := 0 }

/-- A booking whose payment has already been applied: it is confirmed
and its payment_status is paid. -/
def c1_booking : Booking :=
  { id := 1, vehicle_type := VehicleType.executive_sedan, status := BookStatus.confirmed,
    payment_status := BPayStatus.paid, total_amount := 90, customer_phone_present := true }

/-- The payment row already marked completed by the first delivery of
the gateway event. -/
def c1_payment : Payment :=
  { transaction_id := 7, payment_status := PayRowStatus.completed }

/-- The payment confirmation notification produced by the first
delivery of the gateway event. -/
def c1_notif : Notification :=
  { nid := 0, ntype := NType.payment_confirmation, status := NStatus.sent,
    retry_count := 0, max_retries := 3, email_sent := some true, sms_sent := some true,
    meta_phone := true }

/-- The store after the first successful application of the
payment-succeeded event: one confirmed paid booking, one completed
payment, one payment_completed audit entry, one notification, one send
on each channel. -/
def c1_db : DB :=
  { bookings := [c1_booking], payments := [c1_payment], notifications := [c1_notif],
    audit_logs := [AuditAction.payment_completed], emailCalls := 1, waCalls := 1 }

/-- A webhook environment in which every fallible effect succeeds. -/
def c1_env : WebhookEnv :=
  { auditOk := true, notifOk := true, email := okEmailEnv, wa := okWaEnv }

/-- The store after the gateway redelivers the same
payment_intent.succeeded event (valid signature, same intent id 7, same
booking id 1). -/
def c1_replay : DB := (stripe_webhook true true true (some 1) 7 c1_env c1_db).1

/-- A booking-creation request with all seven required fields present
(non-airport addresses), executive sedan, sixty minutes. -/
def fullReq : BookingRequest :=
  { pickup_location := some ['m', 'a', 'i', 'n'], destination := some ['e', 'l', 'm'],
    pickup_date := some ['d'], pickup_time := some ['t'], customer_name := some ['j'],
    customer_email := some ['e'], customer_phone := some ['p'],
    vehicle_type := VehicleType.executive_sedan, estimated_duration := 60 }

/-- A pricing view with no vehicles row and no settings rows: the
hardcoded defaults apply. -/
def pdbDefault : PricingDb := { vehicleRow := none, settingsRows := none, dbError := false }

/-- A creation environment whose email sender fails every sub-attempt
while the WhatsApp sender succeeds. -/
def c3_env : CreateEnv :=
  { pricing := pdbDefault, newUuid := 9, insertOk := true, auditOk := true, notifOk := true,
    email := failEmailEnv, wa := okWaEnv }

/-- The store after dispatching a booking confirmation whose email
channel fails and whose message channel succeeds. -/
def c3_run : DB := (create_booking fullReq c3_env emptyDB).1

/-- A failed notification one scheduler increment in, with both channel
flags recorded true. -/
def c5_n : Notification :=
  { nid := 2, ntype := NType.payment_confirmation, status := NStatus.failed,
    retry_count := 1, max_retries := 3, email_sent := some true, sms_sent := some true,
    meta_phone := true }

/-- A booking-creation request whose customer phone is absent. -/
def c6_req : BookingRequest :=
  { pickup_location := some ['x'], destination := some ['y'],
    pickup_date := some ['d'], pickup_time := some ['t'], customer_name := some ['n'],
    customer_email := some ['e'], customer_phone := none,
    vehicle_type := VehicleType.luxury_suv, estimated_duration := 120 }

/-- An available vehicles-table row for the catalog pricing tier. -/
def vehRow : VehicleRow :=
  { base_rate := 30, per_hour_rate := 70, airport_surcharge := some 12,
    minimum_charge := some 80 }

/-- A set of system_settings rows for the settings pricing tier. -/
def setRows : SettingsRows :=
  { base_rate := some 40, hourly_rate := some 80, airport_rate := none }

/-- A pricing view in which both the catalog and the settings tiers are
populated: the catalog must win. -/
def pdbVeh : PricingDb :=
  { vehicleRow := some vehRow, settingsRows := some setRows, dbError := false }

/-- A pricing view with only the settings tier populated. -/
def pdbSet : PricingDb :=
  { vehicleRow := none, settingsRows := some setRows, dbError := false }

/-- An available vehicles-table row whose airport_surcharge column is
SQL null (reachable: the admin vehicle-update endpoint passes a null
value for that allowed field straight through to the update). -/
def vehRowNull : VehicleRow :=
  { base_rate := 30, per_hour_rate := 70, airport_surcharge := none,
    minimum_charge := some 80 }

/-- A pricing view in which the catalog row exists but carries a null
airport_surcharge, and the settings tier is also populated. -/
def pdbVehNull : PricingDb :=
  { vehicleRow := some vehRowNull, settingsRows := some setRows, dbError := false }

/-- A creation environment in which every fallible effect succeeds. -/
def c7_env : CreateEnv :=
  { pricing := pdbDefault, newUuid := 3, insertOk := true, auditOk := true, notifOk := true,
    email := okEmailEnv, wa := okWaEnv }

/-- A creation environment whose audit insert fails while everything
else succeeds. -/
def c8_env : CreateEnv :=
  { pricing := pdbDefault, newUuid := 4, insertOk := true, auditOk := false, notifOk := true,
    email := okEmailEnv, wa := okWaEnv }

/-- A failed, retry-eligible notification whose channel flags are both
null (the insert never wrote them and no channel succeeded since). -/
def c9_n : Notification :=
  { nid := 6, ntype := NType.booking_confirmation, status := NStatus.failed,
    retry_count := 0, max_retries := 3, email_sent := none, sms_sent := none,
    meta_phone := true }

/-- A failed notification mid-way through scheduler cycles, with both
channel flags recorded false. -/
def c10_n : Notification :=
  { nid := 5, ntype := NType.driver_assigned, status := NStatus.failed,
    retry_count := 1, max_retries := 3, email_sent := some false, sms_sent := some false,
    meta_phone := true }

/-- The ops list driving a fresh notification to the retry cap in one
fully failed email delivery pass. -/
def c4_ops : List NotifOp := [NotifOp.emailSend failEmailEnv]

/-- The stored-row invariant of the ledger: max_retries is the constant
3 written at insert time, and retry_count never exceeds it. -/
def capInv (n : Notification) : Prop := n.max_retries = 3 ∧ n.retry_count ≤ 3

/-- The Python max is bounded below by its second argument. -/
theorem ratMax_right (x m : ℚ) : m ≤ ratMax x m := by
  unfold ratMax
  split
  · exact le_refl m
  · exact le_of_not_le (by assumption)

/-- The email sender never changes max_retries and writes retry_count
only to 3 at its call sites, so it preserves the cap invariant. -/
theorem capInv_email_upd (e : EmailEnv) (n : Notification) (h : capInv n) :
    capInv (email_upd e 3 n) := by
  unfold email_upd
  split
  · exact ⟨h.1, h.2⟩
  · split
    · exact ⟨h.1, h.2⟩
    · exact ⟨h.1, le_refl 3⟩

/-- The WhatsApp sender preserves the cap invariant. -/
theorem capInv_wa_upd (w : WaEnv) (n : Notification) (h : capInv n) :
    capInv (wa_upd w 3 n) := by
  unfold wa_upd
  split
  · exact ⟨h.1, h.2⟩
  · split
    · exact ⟨h.1, h.2⟩
    · exact ⟨h.1, le_refl 3⟩

/-- Marking a row selected by the retry query keeps the count at or
below the cap, because the query required it to be strictly below. -/
theorem capInv_retry_mark (n : Notification) (h : capInv n)
    (hlt : n.retry_count < n.max_retries) : capInv (retry_mark n) := by
  have h2 : n.retry_count < 3 := by rw [h.1] at hlt; exact hlt
  exact ⟨h.1, by show n.retry_count + 1 ≤ 3; omega⟩

/-- The channel pass preserves the cap invariant of the row it updates. -/
theorem capInv_retry_channels (ee : EmailEnv) (we : WaEnv) (orig marked : Notification)
    (h : capInv marked) : capInv (retry_channels ee we orig marked) := by
  unfold retry_channels
  split
  · split
    · exact capInv_wa_upd we _ (capInv_email_upd ee _ h)
    · exact capInv_wa_upd we _ h
  · split
    · exact capInv_email_upd ee _ h
    · exact h

/-- One retry cycle preserves the cap invariant of every row. -/
theorem capInv_retry_cycle (ee : EmailEnv) (we : WaEnv) (n : Notification)
    (h : capInv n) : capInv (retry_cycle_step ee we n).record := by
  unfold retry_cycle_step
  by_cases hq : retryQueryHit n = true
  · rw [if_pos hq]
    have hlt : n.retry_count < n.max_retries := by
      unfold retryQueryHit at hq
      simp only [Bool.and_eq_true, beq_iff_eq, decide_eq_true_eq] at hq
      exact hq.2
    unfold retry_one
    by_cases ht : retryableType n.ntype = true
    · rw [if_pos ht]
      exact capInv_retry_channels ee we n _ (capInv_retry_mark n h hlt)
    · rw [if_neg ht]
      exact capInv_retry_mark n h hlt
  · rw [if_neg hq]
    exact h

/-- Every backend operation on a notification row preserves the cap
invariant. -/
theorem capInv_applyOp (n : Notification) (op : NotifOp) (h : capInv n) :
    capInv (applyOp n op) := by
  cases op with
  | emailSend e => exact capInv_email_upd e n h
  | waSend w => exact capInv_wa_upd w n h
  | retryCycle e w => exact capInv_retry_cycle e w n h

/-- The cap invariant holds after any sequence of backend operations. -/
theorem capInv_foldl (ops : List NotifOp) (n : Notification) (h : capInv n) :
    capInv (ops.foldl applyOp n) := by
  induction ops generalizing n with
  | nil => exact h
  | cons op ops ih => exact ih _ (capInv_applyOp n op h)

/-- The WhatsApp sender never writes the email flag. -/
theorem wa_upd_email_sent (w : WaEnv) (k : Nat) (n : Notification) :
    (wa_upd w k n).email_sent = n.email_sent := by
  unfold wa_upd
  split
  · rfl
  · split
    · rfl
    · rfl

/-- The email sender never writes the sms flag. -/
theorem email_upd_sms_sent (e : EmailEnv) (k : Nat) (n : Notification) :
    (email_upd e k n).sms_sent = n.sms_sent := by
  unfold email_upd
  split
  · rfl
  · split
    · rfl
    · rfl

/-- The WhatsApp sender leaves a retry_count of 3 at 3 in every branch. -/
theorem wa_upd_keeps_rc (w : WaEnv) (n : Notification) (h : n.retry_count = 3) :
    (wa_upd w 3 n).retry_count = 3 := by
  unfold wa_upd
  split
  · exact h
  · split
    · exact h
    · rfl

/-- A null email flag is never re-attempted by a cycle and survives it. -/
theorem email_none_step (ee : EmailEnv) (we : WaEnv) (n : Notification)
    (h : n.email_sent = none) :
    (retry_cycle_step ee we n).emailAtt = false ∧
    (retry_cycle_step ee we n).record.email_sent = none := by
  have hbeq : (n.email_sent == some false) = false := by rw [h]; rfl
  unfold retry_cycle_step
  by_cases hq : retryQueryHit n = true
  · rw [if_pos hq]
    unfold retry_one
    by_cases ht : retryableType n.ntype = true
    · rw [if_pos ht]
      refine ⟨hbeq, ?_⟩
      show (retry_channels ee we n (retry_mark n)).email_sent = none
      unfold retry_channels
      rw [hbeq]
      split
      · rw [wa_upd_email_sent]
        exact h
      · exact h
    · rw [if_neg ht]
      exact ⟨rfl, h⟩
  · rw [if_neg hq]
    exact ⟨rfl, h⟩

/-- A null sms flag is never re-attempted by a cycle and survives it. -/
theorem sms_none_step (ee : EmailEnv) (we : WaEnv) (n : Notification)
    (h : n.sms_sent = none) :
    (retry_cycle_step ee we n).smsAtt = false ∧
    (retry_cycle_step ee we n).record.sms_sent = none := by
  have hbeq : (n.sms_sent == some false) = false := by rw [h]; rfl
  have hband : ((n.sms_sent == some false) && n.meta_phone) = false := by
    rw [hbeq]; rfl
  unfold retry_cycle_step
  by_cases hq : retryQueryHit n = true
  · rw [if_pos hq]
    unfold retry_one
    by_cases ht : retryableType n.ntype = true
    · rw [if_pos ht]
      refine ⟨hband, ?_⟩
      show (retry_channels ee we n (retry_mark n)).sms_sent = none
      unfold retry_channels
      rw [hband]
      split
      · simp_all
      · split
        · rw [email_upd_sms_sent]
          exact h
        · exact h
    · rw [if_neg ht]
      exact ⟨rfl, h⟩
  · rw [if_neg hq]
    exact ⟨rfl, h⟩

/-- C1. The claim states that redelivering payment_intent.succeeded for
an already-paid booking is a no-op with no extra notification, sends or
audit entry. The handler has no idempotency guard: replayed against a
store where the booking is already paid and confirmed, it leaves the
booking confirmed but appends a second payment_completed audit entry, a
second payment confirmation notification, and one more invocation of
each delivery channel. -/
theorem c1_webhook_replay_duplicates :
    c1_booking.payment_status = BPayStatus.paid ∧
    c1_replay.bookings = [c1_booking] ∧
    c1_replay.audit_logs = [AuditAction.payment_completed, AuditAction.payment_completed] ∧
    c1_replay.notifications.length = 2 ∧
    c1_replay.emailCalls = 2 ∧ c1_replay.waCalls = 2 :=
  ⟨rfl, rfl, rfl, rfl, rfl, rfl⟩

/-- C2. A webhook delivery whose signature does not verify is rejected
with a 400 by construct_event before any store access: the store is
returned unchanged (no payment, booking, notification or audit write)
and no success path runs, for every payload, event, environment and
store. -/
theorem c2_invalid_signature_no_state_change (payloadOk succeededType : Bool)
    (mb : Option Nat) (intentId : Nat) (env : WebhookEnv) (db : DB) :
    (stripe_webhook payloadOk false succeededType mb intentId env db).1 = db ∧
    ((stripe_webhook payloadOk false succeededType mb intentId env db).2 =
        WebhookResult.invalidPayload ∨
      (stripe_webhook payloadOk false succeededType mb intentId env db).2 =
        WebhookResult.invalidSignature) := by
  cases payloadOk with
  | false => exact ⟨rfl, Or.inl rfl⟩
  | true => exact ⟨rfl, Or.inr rfl⟩

/-- C3 counterexample. The claim states that a notification whose email
channel fails while its message channel succeeds keeps status failed
with email_sent false. Dispatching a booking confirmation through
create_booking with a failing email sender and a succeeding WhatsApp
sender instead leaves the single ledger row with status sent (the last
channel write wins) and with email_sent still null, never false. -/
theorem c3_counterexample_email_fail_sms_success :
    email_ok c3_env.email 3 = false ∧
    wa_ok c3_env.wa 3 = true ∧
    c3_run.notifications.map Notification.status = [NStatus.sent] ∧
    c3_run.notifications.map Notification.status ≠ [NStatus.failed] ∧
    c3_run.notifications.map Notification.email_sent = [none] ∧
    c3_run.notifications.map Notification.email_sent ≠ [some false] ∧
    c3_run.notifications.map Notification.sms_sent = [some true] :=
  ⟨rfl, rfl, rfl, by decide, rfl, by decide, rfl⟩

/-- C3 amended. Each channel sender overwrites the ledger status with
its own outcome, so after an email-then-message dispatch the status is
that of the message channel alone: sent exactly when the message send
succeeded, regardless of the email outcome. A successful message send
records sms_sent true, and a failed email send leaves email_sent
exactly as it was (it is never set to false). -/
theorem c3_amended_last_channel_wins (ee : EmailEnv) (we : WaEnv) (n : Notification) :
    ((wa_upd we 3 (email_upd ee 3 n)).status =
      if wa_ok we 3 then NStatus.sent else NStatus.failed) ∧
    (wa_ok we 3 = true → (wa_upd we 3 (email_upd ee 3 n)).sms_sent = some true) ∧
    (email_ok ee 3 = false → (email_upd ee 3 n).email_sent = n.email_sent) := by
  refine ⟨?_, ?_, ?_⟩
  · cases hcw : we.configured <;> cases haw : anyAttempt we.attempt 3 <;>
      simp [wa_upd, wa_ok, hcw, haw]
  · intro h
    cases hcw : we.configured <;> cases haw : anyAttempt we.attempt 3 <;>
      simp [wa_upd, wa_ok, hcw, haw] at h ⊢
  · intro h
    cases hce : ee.configured <;> cases hae : anyAttempt ee.attempt 3 <;>
      simp [email_upd, email_ok, hce, hae] at h ⊢

/-- C3 amended witness: at the counterexample input, the message send
succeeded so the row reads sms_sent true, and the failed email send
left email_sent at its inserted null. -/
theorem c3_amended_witness :
    (wa_upd okWaEnv 3 (email_upd failEmailEnv 3
      (create_notification_row 0 NType.booking_confirmation true))).sms_sent = some true ∧
    (email_upd failEmailEnv 3
      (create_notification_row 0 NType.booking_confirmation true)).email_sent = none := by
  have h := c3_amended_last_channel_wins failEmailEnv okWaEnv
    (create_notification_row 0 NType.booking_confirmation true)
  exact ⟨h.2.1 rfl, (h.2.2 rfl).trans rfl⟩

/-- C4. Starting from a freshly inserted ledger row, any sequence of
backend operations (direct channel sends and scheduler cycles) keeps
retry_count at or below max_retries; and whenever retry_count has
reached max_retries the row no longer matches the retry query, so a
scheduler cycle leaves it untouched and re-invokes no channel. -/
theorem c4_retry_count_cap_invariant (t : NType) (mp : Bool) (ops : List NotifOp) :
    (notifAfter t mp ops).retry_count ≤ (notifAfter t mp ops).max_retries ∧
    ((notifAfter t mp ops).retry_count = (notifAfter t mp ops).max_retries →
      ∀ ee we, retryQueryHit (notifAfter t mp ops) = false ∧
        retry_cycle_step ee we (notifAfter t mp ops) =
          { record := notifAfter t mp ops, emailAtt := false, smsAtt := false }) := by
  have h : capInv (notifAfter t mp ops) := by
    unfold notifAfter
    exact capInv_foldl ops _ ⟨rfl, Nat.zero_le 3⟩
  constructor
  · rw [h.1]
    exact h.2
  · intro he ee we
    have hq : retryQueryHit (notifAfter t mp ops) = false := by
      unfold retryQueryHit
      rw [he]
      simp
    refine ⟨hq, ?_⟩
    unfold retry_cycle_step
    rw [if_neg (by rw [hq]; exact Bool.false_ne_true)]

/-- C4 witness: one fully failed email pass drives a fresh booking
confirmation row to retry_count equal to max_retries, after which the
retry query misses it and a cycle is a no-op on it. -/
theorem c4_witness :
    retryQueryHit (notifAfter NType.booking_confirmation true c4_ops) = false ∧
    retry_cycle_step failEmailEnv failWaEnv (notifAfter NType.booking_confirmation true c4_ops) =
      { record := notifAfter NType.booking_confirmation true c4_ops,
        emailAtt := false, smsAtt := false } :=
  (c4_retry_count_cap_invariant NType.booking_confirmation true c4_ops).2 (by decide)
    failEmailEnv failWaEnv

/-- C5. For a row selected by the retry query, the cycle processes it
through the loop body, whose first update increments retry_count by one
and sets status pending; a channel whose flag reads true (already
delivered) is not re-invoked, and when neither channel is re-invoked
the stored row is exactly the marked row. -/
theorem c5_scheduler_increments_and_skips_sent_channels (ee : EmailEnv) (we : WaEnv)
    (n : Notification) (h : retryQueryHit n = true) :
    retry_cycle_step ee we n = retry_one ee we n ∧
    (retry_mark n).retry_count = n.retry_count + 1 ∧
    (retry_mark n).status = NStatus.pending ∧
    (n.email_sent = some true → (retry_one ee we n).emailAtt = false) ∧
    (n.sms_sent = some true → (retry_one ee we n).smsAtt = false) ∧
    ((retry_one ee we n).emailAtt = false → (retry_one ee we n).smsAtt = false →
      (retry_one ee we n).record = retry_mark n) := by
  refine ⟨by unfold retry_cycle_step; rw [if_pos h], rfl, rfl, ?_, ?_, ?_⟩
  · intro he
    unfold retry_one
    by_cases ht : retryableType n.ntype = true <;> simp [ht, he]
  · intro hs
    unfold retry_one
    by_cases ht : retryableType n.ntype = true <;> simp [ht, hs]
  · intro he hs
    unfold retry_one at he hs ⊢
    by_cases ht : retryableType n.ntype = true
    · rw [if_pos ht] at he hs ⊢
      simp only at he hs
      show retry_channels ee we n (retry_mark n) = retry_mark n
      unfold retry_channels
      rw [he, hs]
      simp
    · rw [if_neg ht]

/-- C5 witness: a selected failed row whose two channel flags are both
true is marked (retry_count 1 to 2, status pending) and neither channel
is re-invoked; the stored row is the marked row. -/
theorem c5_witness :
    (retry_one failEmailEnv failWaEnv c5_n).emailAtt = false ∧
    (retry_one failEmailEnv failWaEnv c5_n).smsAtt = false ∧
    (retry_one failEmailEnv failWaEnv c5_n).record = retry_mark c5_n := by
  have h := c5_scheduler_increments_and_skips_sent_channels failEmailEnv failWaEnv c5_n
    (by decide)
  exact ⟨h.2.2.2.1 rfl, h.2.2.2.2.1 rfl,
    h.2.2.2.2.2 (h.2.2.2.1 rfl) (h.2.2.2.2.1 rfl)⟩

/-- C6. A booking-creation request in which any one of the seven
required fields is missing or empty fails the validation guard before
any effect runs: the store is returned unchanged (no booking row, no
notification, no audit entry, no sends) with the validation error. -/
theorem c6_missing_field_validation_no_state_change (r : BookingRequest)
    (env : CreateEnv) (db : DB)
    (h : present r.pickup_location = false ∨ present r.destination = false ∨
      present r.pickup_date = false ∨ present r.pickup_time = false ∨
      present r.customer_name = false ∨ present r.customer_email = false ∨
      present r.customer_phone = false) :
    create_booking r env db = (db, CreateResult.validationError) := by
  have hr : requiredPresent r = false := by
    unfold requiredPresent
    rcases h with h | h | h | h | h | h | h <;> simp [h]
  unfold create_booking
  rw [if_pos hr]

/-- C6 witness: a request missing only the customer phone is rejected
and the empty store stays empty. -/
theorem c6_witness :
    create_booking c6_req c7_env emptyDB = (emptyDB, CreateResult.validationError) :=
  c6_missing_field_validation_no_state_change c6_req c7_env emptyDB
    (Or.inr (Or.inr (Or.inr (Or.inr (Or.inr (Or.inr rfl))))))

/-- C7 counterexample. The claim certifies per-vehicle-catalog-first
precedence, but an available catalog row whose airport_surcharge column
is null makes the float cast of the read value raise, so the lookup
falls through to the last-ditch except constants: the resolved
configuration is neither the catalog rates of the present row, nor the
populated settings tier, nor the hardcoded defaults tier. -/
theorem c7_counterexample_null_airport_surcharge :
    pdbVehNull.dbError = false ∧
    pdbVehNull.vehicleRow = some vehRowNull ∧
    pdbVehNull.settingsRows = some setRows ∧
    get_pricing_from_db pdbVehNull VehicleType.luxury_suv = lastDitchConfig ∧
    (get_pricing_from_db pdbVehNull VehicleType.luxury_suv).base_rate ≠
      vehRowNull.base_rate ∧
    (get_pricing_from_db pdbVehNull VehicleType.luxury_suv).minimum_charge ≠ 80 ∧
    get_pricing_from_db pdbVehNull VehicleType.luxury_suv ≠ configOfSettings setRows ∧
    get_pricing_from_db pdbVehNull VehicleType.luxury_suv ≠
      defaultConfig VehicleType.luxury_suv := by
  refine ⟨rfl, rfl, rfl, rfl, ?_, ?_, ?_, ?_⟩ <;>
    norm_num [get_pricing_from_db, pdbVehNull, vehRowNull, setRows, lastDitchConfig,
      configOfSettings, defaultConfig, defaultRatesFor, PricingConfig.mk.injEq]

/-- C7 amended. The non-airport price is the base rate plus the hourly
rate times the duration in hours, floored at the minimum charge, and
every price (airport or not) is at least the minimum charge. The rate
configuration is resolved with the precedence: available vehicles row
first - provided its airport_surcharge is non-null - then
system_settings, then the hardcoded defaults; a catalog row with a null
airport_surcharge makes the lookup raise and yields the fixed
last-ditch constants instead of any tier. Every booking created from a
complete request carries a total_amount at least the resolved minimum
charge for its vehicle type. -/
theorem c7_amended_pricing_formula_precedence_minimum (p : PricingDb) (vt : VehicleType)
    (d : ℚ) :
    calculate_price p vt d false =
      ratMax ((get_pricing_from_db p vt).base_rate +
          (get_pricing_from_db p vt).per_hour_rate * (d / 60))
        (get_pricing_from_db p vt).minimum_charge ∧
    (∀ air : Bool, (get_pricing_from_db p vt).minimum_charge ≤ calculate_price p vt d air) ∧
    (p.dbError = false → ∀ v sur, p.vehicleRow = some v → v.airport_surcharge = some sur →
      get_pricing_from_db p vt = configOfVehicle v sur) ∧
    (p.dbError = false → ∀ v, p.vehicleRow = some v → v.airport_surcharge = none →
      get_pricing_from_db p vt = lastDitchConfig) ∧
    (p.dbError = false → p.vehicleRow = none → ∀ s, p.settingsRows = some s →
      get_pricing_from_db p vt = configOfSettings s) ∧
    (p.dbError = false → p.vehicleRow = none → p.settingsRows = none →
      get_pricing_from_db p vt = defaultConfig vt) ∧
    (∀ (r : BookingRequest) (env : CreateEnv) (db : DB),
      requiredPresent r = true → env.insertOk = true →
      ∃ b, (create_booking r env db).2 = CreateResult.created b ∧
        (get_pricing_from_db env.pricing r.vehicle_type).minimum_charge ≤ b.total_amount) := by
  refine ⟨rfl, ?_, ?_, ?_, ?_, ?_, ?_⟩
  · intro air
    exact ratMax_right _ _
  · intro he v sur hv hsur
    simp [get_pricing_from_db, he, hv, hsur]
  · intro he v hv hsur
    simp [get_pricing_from_db, he, hv, hsur]
  · intro he hv s hs
    unfold get_pricing_from_db
    rw [he, hv, hs]
    rfl
  · intro he hv hs
    unfold get_pricing_from_db
    rw [he, hv, hs]
    rfl
  · intro r env db hr hi
    unfold create_booking
    rw [if_neg (by rw [hr]; decide), if_neg (by rw [hi]; decide)]
    exact ⟨_, rfl, ratMax_right _ _⟩

/-- C7 witness: with no catalog row and no settings rows the defaults
price an executive sedan hour at 25 plus 65, floored at 50, giving 90;
a catalog row with a non-null surcharge beats populated settings; a
catalog row with a null surcharge yields the last-ditch constants;
settings beat defaults; and a complete request yields a booking at or
above the minimum charge. -/
theorem c7_witness :
    calculate_price pdbDefault VehicleType.executive_sedan 60 false =
      ratMax ((get_pricing_from_db pdbDefault VehicleType.executive_sedan).base_rate +
          (get_pricing_from_db pdbDefault VehicleType.executive_sedan).per_hour_rate * (60 / 60))
        (get_pricing_from_db pdbDefault VehicleType.executive_sedan).minimum_charge ∧
    calculate_price pdbDefault VehicleType.executive_sedan 60 false = 90 ∧
    (get_pricing_from_db pdbDefault VehicleType.executive_sedan).minimum_charge ≤
      calculate_price pdbDefault VehicleType.executive_sedan 60 true ∧
    get_pricing_from_db pdbVeh VehicleType.luxury_suv = configOfVehicle vehRow 12 ∧
    get_pricing_from_db pdbVehNull VehicleType.luxury_suv = lastDitchConfig ∧
    get_pricing_from_db pdbSet VehicleType.luxury_suv = configOfSettings setRows ∧
    get_pricing_from_db pdbDefault VehicleType.sprinter_van =
      defaultConfig VehicleType.sprinter_van ∧
    (∃ b, (create_booking fullReq c7_env emptyDB).2 = CreateResult.created b ∧
      (get_pricing_from_db c7_env.pricing fullReq.vehicle_type).minimum_charge ≤
        b.total_amount) := by
  have h1 := c7_amended_pricing_formula_precedence_minimum pdbDefault
    VehicleType.executive_sedan 60
  have h2 := c7_amended_pricing_formula_precedence_minimum pdbVeh VehicleType.luxury_suv 60
  have h2n := c7_amended_pricing_formula_precedence_minimum pdbVehNull
    VehicleType.luxury_suv 60
  have h3 := c7_amended_pricing_formula_precedence_minimum pdbSet VehicleType.luxury_suv 60
  have h4 := c7_amended_pricing_formula_precedence_minimum pdbDefault
    VehicleType.sprinter_van 60
  refine ⟨h1.1, ?_, h1.2.1 true, h2.2.2.1 rfl vehRow 12 rfl rfl,
    h2n.2.2.2.1 rfl vehRowNull rfl rfl, h3.2.2.2.2.1 rfl rfl setRows rfl,
    h4.2.2.2.2.2.1 rfl rfl rfl,
    h1.2.2.2.2.2.2 fullReq c7_env emptyDB (by decide) rfl⟩
  rw [h1.1]
  norm_num [get_pricing_from_db, pdbDefault, defaultConfig, defaultRatesFor, ratMax]

/-- C8. The audit writer swallows its own failures: the raw insert can
fail, but create_audit_log is total, never touches the bookings,
payments or notifications tables, and on failure returns the store
unchanged. In a caller, a failing audit insert neither blocks nor rolls
back the primary mutation: create_booking still inserts the booking row
while the audit log is left as it was. -/
theorem c8_audit_failure_swallowed (ok : Bool) (a : AuditAction) (db : DB) :
    audit_insert false a db.audit_logs = Except.error () ∧
    (create_audit_log ok a db).bookings = db.bookings ∧
    (create_audit_log ok a db).payments = db.payments ∧
    (create_audit_log ok a db).notifications = db.notifications ∧
    (ok = false → create_audit_log ok a db = db) ∧
    (∀ (r : BookingRequest) (env : CreateEnv) (db0 : DB),
      requiredPresent r = true → env.insertOk = true → env.auditOk = false →
      (create_booking r env db0).1.bookings.length = db0.bookings.length + 1 ∧
      (create_booking r env db0).1.audit_logs = db0.audit_logs) := by
  refine ⟨rfl, ?_, ?_, ?_, ?_, ?_⟩
  · cases ok <;> rfl
  · cases ok <;> rfl
  · cases ok <;> rfl
  · intro h
    rw [h]
    rfl
  · intro r env db0 hr hi ha
    unfold create_booking
    rw [if_neg (by rw [hr]; decide),
      if_neg (by rw [hi]; decide)]
    rw [ha]
    cases hn : env.notifOk <;>
      simp [create_audit_log, audit_insert, create_notification,
        send_email_with_retry, send_whatsapp_with_retry, updNotif, hn]

/-- C8 witness: with a failing audit insert and everything else
succeeding, a complete request still inserts its booking while the
audit log stays empty; the audit writer itself maps the empty store to
itself. -/
theorem c8_witness :
    (create_booking fullReq c8_env emptyDB).1.bookings.length = 1 ∧
    (create_booking fullReq c8_env emptyDB).1.audit_logs = [] ∧
    create_audit_log false AuditAction.booking_created emptyDB = emptyDB := by
  have h := c8_audit_failure_swallowed false AuditAction.booking_created emptyDB
  have h6 := h.2.2.2.2.2 fullReq c8_env emptyDB (by decide) rfl rfl
  exact ⟨h6.1, h6.2, h.2.2.2.2.1 rfl⟩

/-- C9. The scheduler re-attempts a channel only when its flag reads
exactly false: a row whose email_sent (respectively sms_sent) is null
is never re-attempted on that channel in any number of retry cycles,
and the flag stays null, even while the row remains failed with
retry_count below the cap. -/
theorem c9_null_channel_flag_never_reattempted (cycles : List (EmailEnv × WaEnv))
    (n : Notification) :
    (n.email_sent = none →
      (emailAttTrace cycles n).any (fun b => b) = false ∧
      (retryIter cycles n).email_sent = none) ∧
    (n.sms_sent = none →
      (smsAttTrace cycles n).any (fun b => b) = false ∧
      (retryIter cycles n).sms_sent = none) := by
  induction cycles generalizing n with
  | nil => exact ⟨fun h => ⟨rfl, h⟩, fun h => ⟨rfl, h⟩⟩
  | cons c cs ih =>
    constructor
    · intro h
      have hs := email_none_step c.1 c.2 n h
      have hrec := (ih (retry_cycle_step c.1 c.2 n).record).1 hs.2
      refine ⟨?_, hrec.2⟩
      show ((retry_cycle_step c.1 c.2 n).emailAtt ::
        emailAttTrace cs (retry_cycle_step c.1 c.2 n).record).any (fun b => b) = false
      rw [List.any_cons, hs.1, hrec.1]
      rfl
    · intro h
      have hs := sms_none_step c.1 c.2 n h
      have hrec := (ih (retry_cycle_step c.1 c.2 n).record).2 hs.2
      refine ⟨?_, hrec.2⟩
      show ((retry_cycle_step c.1 c.2 n).smsAtt ::
        smsAttTrace cs (retry_cycle_step c.1 c.2 n).record).any (fun b => b) = false
      rw [List.any_cons, hs.1, hrec.1]
      rfl

/-- C9 witness: a failed, retry-eligible row with both flags null goes
through a cycle with fully succeeding senders without either channel
being invoked, and both flags are still null afterwards. -/
theorem c9_witness :
    (emailAttTrace [(okEmailEnv, okWaEnv)] c9_n).any (fun b => b) = false ∧
    (retryIter [(okEmailEnv, okWaEnv)] c9_n).email_sent = none ∧
    (smsAttTrace [(okEmailEnv, okWaEnv)] c9_n).any (fun b => b) = false ∧
    (retryIter [(okEmailEnv, okWaEnv)] c9_n).sms_sent = none := by
  have h := c9_null_channel_flag_never_reattempted [(okEmailEnv, okWaEnv)] c9_n
  exact ⟨(h.1 rfl).1, (h.1 rfl).2, (h.2 rfl).1, (h.2 rfl).2⟩

/-- C10. When a sender is configured and all of its local sub-attempts
fail, it writes status failed and retry_count 3 (its own max_retries
constant) to the row unconditionally, overwriting whatever retry_count
was stored; within a retry cycle that re-attempts a failed email and
fails again, the stored retry_count is therefore 3 regardless of how
many scheduler increments had run. -/
theorem c10_failed_send_overwrites_retry_count (ee : EmailEnv) (we : WaEnv)
    (n : Notification) :
    (ee.configured = true → anyAttempt ee.attempt 3 = false →
      email_upd ee 3 n = { n with status := NStatus.failed, retry_count := 3 }) ∧
    (we.configured = true → anyAttempt we.attempt 3 = false →
      wa_upd we 3 n = { n with status := NStatus.failed, retry_count := 3 }) ∧
    (retryableType n.ntype = true → n.email_sent = some false → ee.configured = true →
      anyAttempt ee.attempt 3 = false →
      (retry_one ee we n).record.retry_count = 3) := by
  refine ⟨?_, ?_, ?_⟩
  · intro hc ha
    unfold email_upd
    rw [if_neg (by rw [hc]; decide), if_neg (by rw [ha]; exact Bool.false_ne_true)]
  · intro hc ha
    unfold wa_upd
    rw [if_neg (by rw [hc]; decide), if_neg (by rw [ha]; exact Bool.false_ne_true)]
  · intro ht he hc ha
    unfold retry_one
    rw [if_pos ht]
    show (retry_channels ee we n (retry_mark n)).retry_count = 3
    unfold retry_channels
    have hatt : (n.email_sent == some false) = true := by rw [he]; rfl
    rw [hatt]
    have hrc : (email_upd ee 3 (retry_mark n)).retry_count = 3 := by
      unfold email_upd
      rw [if_neg (by rw [hc]; decide),
        if_neg (by rw [ha]; exact Bool.false_ne_true)]
    split
    · simp only [if_pos rfl]
      exact wa_upd_keeps_rc we _ hrc
    · simp only [if_pos rfl]
      exact hrc

/-- C10 witness: a driver-assignment row at retry_count 1 whose email
and WhatsApp sends fully fail is stored with retry_count 3 by either
sender, and a retry cycle on it also leaves retry_count 3. -/
theorem c10_witness :
    email_upd failEmailEnv 3 c10_n = { c10_n with status := NStatus.failed, retry_count := 3 } ∧
    wa_upd failWaEnv 3 c10_n = { c10_n with status := NStatus.failed, retry_count := 3 } ∧
    (retry_one failEmailEnv failWaEnv c10_n).record.retry_count = 3 := by
  have h := c10_failed_send_overwrites_retry_count failEmailEnv failWaEnv c10_n
  exact ⟨h.1 rfl rfl, h.2.1 rfl rfl, h.2.2 rfl rfl rfl rfl⟩
